import Mathlib

/-!
Shallow embedding of the iTunes App Store scraper
(`itunes_app_scraper/scraper.py`, `itunes_app_scraper/util.py`).

Network I/O is parameterized: operations that perform HTTP requests take the
(already fetched/parsed) upstream response, or a fetch function, as an
argument.  Python exceptions are modelled with `Except PyErr`; Python `dict`
values are modelled as association lists preserving insertion order, which is
how CPython dicts behave.
-/

namespace ItunesScraper

set_option maxRecDepth 16384

/-- Python exception kinds observable in the scraper code paths:
`AppStoreException` (the scraper's own error, `util.py`), plus the built-in
exceptions that the code can raise: `TypeError` (e.g. `",".join` on
non-strings, subscripting an `int`), `ValueError` (`int()` on a bad string),
`KeyError` (missing dict key), and `UnboundLocalError` (reading a local
variable that was never assigned). -/
inductive PyErr where
  | appStore (msg : String)
  | typeError
  | valueError
  | keyError
  | unboundLocal (name : String)
  deriving Repr, DecidableEq

/-- JSON-like values appearing in upstream lookup responses. -/
inductive Value where
  | s (v : String)
  | i (v : Int)
  | b (v : Bool)
  | null
  | list (vs : List Value)
  | dict (fields : List (String × Value))
  deriving Repr

/-- An upstream app record: a Python dict from field name to value,
modelled as an insertion-ordered association list. -/
abbrev Record := List (String × Value)

/-- Opening quote character used when rendering Python `repr` of strings. -/
def pyQuote : String := String.singleton (Char.ofNat 39)

mutual

/-- Python `repr()` of a JSON-like value (as used by `%s` formatting of
non-string containers). -/
def pyRepr : Value → String
  | .s t => pyQuote ++ t ++ pyQuote
  | .i n => toString n
  | .b true => "True"
  | .b false => "False"
  | .null => "None"
  | .list vs => "[" ++ pyReprList vs ++ "]"
  | .dict fs => "\x7b" ++ pyReprFields fs ++ "\x7d"

def pyReprList : List Value → String
  | [] => ""
  | [v] => pyRepr v
  | v :: rest => pyRepr v ++ ", " ++ pyReprList rest

def pyReprFields : List (String × Value) → String
  | [] => ""
  | [(k, v)] => pyQuote ++ k ++ pyQuote ++ ": " ++ pyRepr v
  | (k, v) :: rest => pyQuote ++ k ++ pyQuote ++ ": " ++ pyRepr v ++ ", " ++ pyReprFields rest

end

/-- Python `str()` of a JSON-like value, i.e. what `"%s" % value` renders. -/
def pyStr : Value → String
  | .s t => t
  | v => pyRepr v

/-- A value is scalar when it is neither a list nor a dict. -/
def isScalar : Value → Bool
  | .list _ => false
  | .dict _ => false
  | _ => true

/-- A record is flat when every field value is scalar. -/
def isFlatRecord (r : Record) : Bool :=
  r.all (fun kv => isScalar kv.2)

/-- `",".join(xs)`: succeeds only when every element is a string
(otherwise Python raises `TypeError`). -/
def joinComma (vs : List Value) : Except PyErr Value :=
  match vs.mapM (fun v => match v with | .s t => some t | _ => none) with
  | some ss => .ok (.s (String.intercalate "," ss))
  | none => .error .typeError

/-- The `flatten` branch of `get_app_details` applied to one field value
(scraper.py lines 220-225): a list is comma-joined, a dict is rendered as
comma-joined `"key star: value"` strings, anything else is left alone. -/
def flattenValue : Value → Except PyErr Value
  | .list vs => joinComma vs
  | .dict fs =>
      .ok (.s (String.intercalate ", " (fs.map (fun kv => kv.1 ++ " star: " ++ pyStr kv.2))))
  | v => .ok v

/-- The `flatten` loop of `get_app_details`: each field value is flattened in
iteration order; the first Python exception aborts the loop. -/
def flattenRecord : Record → Except PyErr Record
  | [] => .ok []
  | (k, v) :: rest =>
    match flattenValue v with
    | .error e => .error e
    | .ok v2 =>
      match flattenRecord rest with
      | .error e => .error e
      | .ok rest2 => .ok ((k, v2) :: rest2)

/-- Python dict assignment `r[k] = v`: replaces the value in place when the
key exists (keeping its position), appends otherwise. -/
def recordSet (r : Record) (k : String) (v : Value) : Record :=
  if r.any (fun p => p.1 == k) then
    r.map (fun p => if p.1 = k then (k, v) else p)
  else
    r ++ [(k, v)]

/-- The `AppStoreMarkets` table of `util.py`: country code to numeric
storefront identifier, in source order.  Python attribute access on the class
is modelled as association-list lookup (attribute names are case-sensitive,
and the only attributes reachable from an upper-cased two-letter code are
these table entries). -/
def marketsTable : List (String × Nat) := [
  ("DZ", 143563), ("AO", 143564), ("AI", 143538), ("AR", 143505),
  ("AM", 143524), ("AU", 143460), ("AT", 143445), ("AZ", 143568),
  ("BH", 143559), ("BB", 143541), ("BY", 143565), ("BE", 143446),
  ("BZ", 143555), ("BM", 143542), ("BO", 143556), ("BW", 143525),
  ("BR", 143503), ("VG", 143543), ("BN", 143560), ("BG", 143526),
  ("CA", 143455), ("KY", 143544), ("CL", 143483), ("CN", 143465),
  ("CO", 143501), ("CR", 143495), ("HR", 143494), ("CY", 143557),
  ("CZ", 143489), ("DK", 143458), ("DM", 143545), ("EC", 143509),
  ("EG", 143516), ("SV", 143506), ("EE", 143518), ("FI", 143447),
  ("FR", 143442), ("DE", 143443), ("GB", 143444), ("GH", 143573),
  ("GR", 143448), ("GD", 143546), ("GT", 143504), ("GY", 143553),
  ("HN", 143510), ("HK", 143463), ("HU", 143482), ("IS", 143558),
  ("IN", 143467), ("ID", 143476), ("IE", 143449), ("IL", 143491),
  ("IT", 143450), ("JM", 143511), ("JP", 143462), ("JO", 143528),
  ("KE", 143529), ("KW", 143493), ("LV", 143519), ("LB", 143497),
  ("LT", 143520), ("LU", 143451), ("MO", 143515), ("MK", 143530),
  ("MG", 143531), ("MY", 143473), ("ML", 143532), ("MT", 143521),
  ("MU", 143533), ("MX", 143468), ("MS", 143547), ("NP", 143484),
  ("NL", 143452), ("NZ", 143461), ("NI", 143512), ("NE", 143534),
  ("NG", 143561), ("NO", 143457), ("OM", 143562), ("PK", 143477),
  ("PA", 143485), ("PY", 143513), ("PE", 143507), ("PH", 143474),
  ("PL", 143478), ("PT", 143453), ("QA", 143498), ("RO", 143487),
  ("RU", 143469), ("SA", 143479), ("SN", 143535), ("SG", 143464),
  ("SK", 143496), ("SI", 143499), ("ZA", 143472), ("ES", 143454),
  ("LK", 143486), ("SR", 143554), ("SE", 143456), ("CH", 143459),
  ("TW", 143470), ("TZ", 143572), ("TH", 143475), ("TN", 143536),
  ("TR", 143480), ("UG", 143537), ("UA", 143492), ("AE", 143481),
  ("US", 143441), ("UY", 143514), ("UZ", 143566), ("VE", 143502),
  ("VN", 143471), ("YE", 143571)]

/-- Python `str.upper()`, character-wise (coincides with CPython on the ASCII
country codes the table holds). -/
def upperString (s : String) : String :=
  String.mk (s.data.map Char.toUpper)

/-- `AppStoreScraper.get_store_id_for_country` (scraper.py lines 276-289):
upper-cases the code, returns the table entry when present, raises
`AppStoreException` otherwise.  Pure: no I/O in the source. -/
def get_store_id_for_country (country : String) : Except PyErr Nat :=
  match marketsTable.lookup (upperString country) with
  | some sid => .ok sid
  | none => .error (.appStore ("Country code not found for " ++ upperString country))

/-- A category entry of `AppStoreCategories` (util.py): either a
`[slug, numeric-id]` pair or, for legacy entries, a bare numeric id. -/
inductive CategoryEntry where
  | pair (slug : String) (catId : Nat)
  | bare (catId : Nat)
  deriving Repr, DecidableEq

set_option maxHeartbeats 1000000 in
/-- The `AppStoreCategories` table of `util.py`, in source order. -/
def categoriesTable : List (String × CategoryEntry) := [
  ("APPLE_BOOKS", .pair "books-apps" 6018),
  ("APPLE_BUSINESS", .pair "business-apps" 6000),
  ("APPLE_CATALOGS", .bare 6022),
  ("APPLE_DEVELOPER_TOOLS", .pair "developer-tools-apps" 6026),
  ("APPLE_EDUCATION", .pair "education-apps" 6017),
  ("APPLE_ENTERTAINMENT", .pair "entertainment-apps" 6016),
  ("APPLE_FINANCE", .pair "finance-apps" 6015),
  ("APPLE_FOOD_AND_DRINK", .pair "food-drink-apps" 6023),
  ("APPLE_GAMES_FREE", .pair "top-free-games" 6014),
  ("APPLE_GAMES_PAID", .pair "top-paid-games" 6014),
  ("APPLE_GAMES_ACTION", .pair "action-games" 7001),
  ("APPLE_GAMES_ADVENTURE", .pair "adventure-games" 7002),
  ("APPLE_GAMES_ARCADE", .bare 7003),
  ("APPLE_GAMES_BOARD", .pair "board-games" 7004),
  ("APPLE_GAMES_CARD", .pair "card-games" 7005),
  ("APPLE_GAMES_CASINO", .pair "casino-games" 7006),
  ("APPLE_GAMES_CASUAL", .pair "casual-games" 7003),
  ("APPLE_GAMES_DICE", .bare 7007),
  ("APPLE_GAMES_EDUCATIONAL", .bare 7008),
  ("APPLE_GAMES_FAMILY", .pair "family-games" 7009),
  ("APPLE_GAMES_MUSIC", .pair "music-games" 7011),
  ("APPLE_GAMES_PUZZLE", .pair "puzzle-games" 7012),
  ("APPLE_GAMES_RACING", .pair "racing-games" 7013),
  ("APPLE_GAMES_ROLE_PLAYING", .pair "role-playing-games" 7014),
  ("APPLE_GAMES_SIMULATION", .pair "simulation-games" 7015),
  ("APPLE_GAMES_SPORTS", .pair "sports-games" 7016),
  ("APPLE_GAMES_STRATEGY", .pair "strategy-games" 7017),
  ("APPLE_GAMES_TRIVIA", .pair "trivia-games" 7018),
  ("APPLE_GAMES_WORD", .pair "word-games" 7019),
  ("APPLE_GRAPHICS_AND_DESIGN", .pair "graphics-design-apps" 6027),
  ("APPLE_HEALTH_AND_FITNESS", .pair "health-fitness-apps" 6013),
  ("APPLE_LIFESTYLE", .pair "lifestyle-apps" 6012),
  ("APPLE_MAGAZINES_AND_NEWSPAPERS", .pair "magazines-newspapers-apps" 6021),
  ("APPLE_MAGAZINES_ARTS", .bare 13007),
  ("APPLE_MAGAZINES_AUTOMOTIVE", .bare 13006),
  ("APPLE_MAGAZINES_WEDDINGS", .bare 13008),
  ("APPLE_MAGAZINES_BUSINESS", .bare 13009),
  ("APPLE_MAGAZINES_CHILDREN", .bare 13010),
  ("APPLE_MAGAZINES_COMPUTER", .bare 13011),
  ("APPLE_MAGAZINES_FOOD", .bare 13012),
  ("APPLE_MAGAZINES_CRAFTS", .bare 13013),
  ("APPLE_MAGAZINES_ELECTRONICS", .bare 13014),
  ("APPLE_MAGAZINES_ENTERTAINMENT", .bare 13015),
  ("APPLE_MAGAZINES_FASHION", .bare 13002),
  ("APPLE_MAGAZINES_HEALTH", .bare 13017),
  ("APPLE_MAGAZINES_HISTORY", .bare 13018),
  ("APPLE_MAGAZINES_HOME", .bare 13003),
  ("APPLE_MAGAZINES_LITERARY", .bare 13019),
  ("APPLE_MAGAZINES_MEN", .bare 13020),
  ("APPLE_MAGAZINES_MOVIES_AND_MUSIC", .bare 13021),
  ("APPLE_MAGAZINES_POLITICS", .bare 13001),
  ("APPLE_MAGAZINES_OUTDOORS", .bare 13004),
  ("APPLE_MAGAZINES_FAMILY", .bare 13023),
  ("APPLE_MAGAZINES_PETS", .bare 13024),
  ("APPLE_MAGAZINES_PROFESSIONAL", .bare 13025),
  ("APPLE_MAGAZINES_REGIONAL", .bare 13026),
  ("APPLE_MAGAZINES_SCIENCE", .bare 13027),
  ("APPLE_MAGAZINES_SPORTS", .bare 13005),
  ("APPLE_MAGAZINES_TEENS", .bare 13028),
  ("APPLE_MAGAZINES_TRAVEL", .bare 13029),
  ("APPLE_MAGAZINES_WOMEN", .bare 13030),
  ("APPLE_MEDICAL", .pair "medical-apps" 6020),
  ("APPLE_MUSIC", .pair "music-apps" 6011),
  ("APPLE_NAVIGATION", .pair "navigation-apps" 6010),
  ("APPLE_NEWS", .pair "news-apps" 6009),
  ("APPLE_PHOTO_AND_VIDEO", .pair "photo-video-apps" 6008),
  ("APPLE_PRODUCTIVITY", .pair "productivity-apps" 6007),
  ("APPLE_REFERENCE", .pair "reference-apps" 6006),
  ("APPLE_SHOPPING", .pair "shopping-apps" 6024),
  ("APPLE_SOCIAL_NETWORKING", .pair "social-networking-apps" 6005),
  ("APPLE_SPORTS", .pair "sports-apps" 6004),
  ("APPLE_TRAVEL", .pair "travel-apps" 6003),
  ("APPLE_UTILITIES", .pair "utilities-apps" 6002),
  ("APPLE_WEATHER", .pair "weather-apps" 6001)]

/-- `AppStoreScraper.get_app_from_collection_category` (scraper.py lines
348-372), with the HTTP fetch parameterized by `fetchHrefs` (the anchor hrefs
the xpath query extracts from the fetched charts page at the built URL).
The source guards the table lookup with `if hasattr(...)` but has no `else`
branch, so a category name absent from the table leaves `category_data`
unassigned and the subsequent f-string raises `UnboundLocalError`; a bare
numeric entry makes `category_data[0]` raise `TypeError`. -/
def get_app_from_collection_category (collection category device country : String)
    (fetchHrefs : String → List String) : Except PyErr (List String) :=
  match categoriesTable.lookup category with
  | none => .error (.unboundLocal "category_data")
  | some (.bare _) => .error .typeError
  | some (.pair slug catId) =>
    let url := "https://apps.apple.com/" ++ country ++ "/charts/" ++ device ++ "/"
      ++ slug ++ "/" ++ toString catId ++ "?chart=" ++ collection
    .ok (((fetchHrefs url).take 100).map (fun u => (u.splitOn "/id").getLastD u))

/-- The literal prefix of the `Regex.STARS` pattern
`<span class="total">[\s\S]*?</span>` (scraper.py line 17). -/
def openTag : List Char := "<span class=\"total\">".data

/-- The literal suffix of the `Regex.STARS` pattern. -/
def closeTag : List Char := "</span>".data

/-- Split off everything before (and including) the first occurrence of
`close` in the text: returns `(content, rest)` with
`text = content ++ close ++ rest` and `content` not containing `close`
at any earlier position, or `none` when `close` never occurs.  This is the
non-greedy `[\s\S]*?` part of the pattern. -/
def splitAfter (close : List Char) : List Char → Option (List Char × List Char)
  | [] => if close.isEmpty then some ([], []) else none
  | x :: xs =>
    if close.isPrefixOf (x :: xs) then some ([], (x :: xs).drop close.length)
    else (splitAfter close xs).map (fun p => (x :: p.1, p.2))

/-- `re.findall` of the `STARS` pattern, fuelled so that the recursion is
structural (each recursive call strictly shrinks the text, so fuel equal to
the text length never runs out): scan left to right; at a position where the
open tag matches and a close tag follows, emit the whole non-greedy match and
resume after it; otherwise advance one character. -/
def findStarsFuel : Nat → List Char → List (List Char)
  | 0, _ => []
  | _ + 1, [] => []
  | fuel + 1, x :: xs =>
    if openTag.isPrefixOf (x :: xs) then
      match splitAfter closeTag ((x :: xs).drop openTag.length) with
      | some (content, rest) => (openTag ++ content ++ closeTag) :: findStarsFuel fuel rest
      | none => findStarsFuel fuel xs
    else findStarsFuel fuel xs

/-- `Regex.STARS.findall(text)`: all non-overlapping matches, left to right. -/
def findStars (text : List Char) : List (List Char) :=
  findStarsFuel text.length text

/-- Python `str.replace(pat, "")` for a non-empty pattern: removes the
non-overlapping occurrences of `pat` scanning left to right (fuelled for
structural recursion; fuel equal to the text length suffices). -/
def removeAllFuel (pat : List Char) : Nat → List Char → List Char
  | 0, l => l
  | _ + 1, [] => []
  | fuel + 1, x :: xs =>
    if pat.isPrefixOf (x :: xs) then removeAllFuel pat fuel ((x :: xs).drop pat.length)
    else x :: removeAllFuel pat fuel xs

/-- `text.replace(pat, "")` as used by `_parse_rating`. -/
def removeAll (pat : List Char) (text : List Char) : List Char :=
  removeAllFuel pat text.length text

/-- Characters Python's `int()` strips from both ends of its argument. -/
def isPySpace (c : Char) : Bool :=
  c == ' ' || c == '\t' || c == '\n' || c == '\r' || c == Char.ofNat 11 || c == Char.ofNat 12

/-- Strip leading and trailing whitespace, as Python `int()` does. -/
def stripWs (l : List Char) : List Char :=
  ((l.dropWhile isPySpace).reverse.dropWhile isPySpace).reverse

/-- Continue parsing an unsigned decimal literal: digits, with single
underscores allowed between digits (CPython's `int()` grammar). -/
def parseDigitsAux : Nat → List Char → Option Nat
  | acc, [] => some acc
  | acc, c :: rest =>
    if c.isDigit then parseDigitsAux (acc * 10 + (c.toNat - 48)) rest
    else if c == '_' then
      match rest with
      | [] => none
      | d :: rest2 =>
        if d.isDigit then parseDigitsAux (acc * 10 + (d.toNat - 48)) rest2 else none
    else none

/-- Parse an unsigned decimal literal (must start with a digit). -/
def parseUDec : List Char → Option Nat
  | [] => none
  | c :: rest => if c.isDigit then parseDigitsAux (c.toNat - 48) rest else none

/-- Python `int(str)` on ASCII input: strip whitespace, optional sign,
decimal digits; `none` models the `ValueError` raise. -/
def pyInt (l : List Char) : Option Int :=
  match stripWs l with
  | '-' :: rest => (parseUDec rest).map (fun n => -(n : Int))
  | '+' :: rest => (parseUDec rest).map (fun n => (n : Int))
  | t => (parseUDec t).map (fun n => (n : Int))

/-- The two `value.replace(...)` calls of `_parse_rating`
(scraper.py lines 405-407): strip the open tag, then the close tag. -/
def cleanMatch (m : List Char) : List Char :=
  removeAll closeTag (removeAll openTag m)

/-- A Python dict with integer keys and values, insertion-ordered. -/
abbrev PyDict := List (Int × Int)

/-- `AppStoreScraper._parse_rating` (scraper.py lines 394-411): find the star
fragments; with anything other than exactly five matches return `None`;
otherwise strip the markup from each match, parse it with `int()` (raising
`ValueError` on a non-numeric total), and build the dict assigning the
matches to stars 5 down to 1 in order. -/
def parse_rating (text : List Char) : Except PyErr (Option PyDict) :=
  match findStars text with
  | [m5, m4, m3, m2, m1] =>
    match pyInt (cleanMatch m5), pyInt (cleanMatch m4), pyInt (cleanMatch m3),
        pyInt (cleanMatch m2), pyInt (cleanMatch m1) with
    | some v5, some v4, some v3, some v2, some v1 =>
      .ok (some [(5, v5), (4, v4), (3, v3), (2, v2), (1, v1)])
    | _, _, _, _, _ => .error .valueError
  | _ => .ok none

/-- Python dict read `d[k]`. -/
def pyGet (d : PyDict) (k : Int) : Option Int :=
  (d.find? (fun p => p.1 == k)).map (fun p => p.2)

/-- Python dict assignment `d[k] = v`: replace in place when the key exists,
append otherwise. -/
def pySet (d : PyDict) (k : Int) (v : Int) : PyDict :=
  if d.any (fun p => p.1 == k) then
    d.map (fun p => if p.1 = k then (k, v) else p)
  else
    d ++ [(k, v)]

/-- The initial `dataset = { 1: 0, 2: 0, 3: 0, 4: 0, 5: 0 }` of
`get_app_ratings` (scraper.py line 306). -/
def initialDataset : PyDict := [(1, 0), (2, 0), (3, 0), (4, 0), (5, 0)]

/-- One line `dataset[k] = dataset[k] + ratings[k]` of the accumulation
(scraper.py lines 335-339); a missing key would raise `KeyError`. -/
def addKey (k : Int) (ratings : PyDict) (dataset : PyDict) : Except PyErr PyDict :=
  match pyGet dataset k, pyGet ratings k with
  | some dv, some rv => .ok (pySet dataset k (dv + rv))
  | _, _ => .error .keyError

/-- The five bucket-wise additions of `get_app_ratings`
(scraper.py lines 335-339). -/
def accumulateRatings (dataset ratings : PyDict) : Except PyErr PyDict :=
  addKey 1 ratings dataset >>= addKey 2 ratings >>= addKey 3 ratings
    >>= addKey 4 ratings >>= addKey 5 ratings

/-- One iteration of the country loop of `get_app_ratings` (scraper.py lines
314-339): resolve the storefront id (an unknown code raises), fetch the
review page (`fetch c = none` models both the request and its retry raising,
which surfaces as `AppStoreException`), parse the star fragments, and either
skip (`None`) or accumulate. -/
def ratingsStep (fetch : String → Option (List Char)) (dataset : PyDict)
    (country : String) : Except PyErr PyDict :=
  match get_store_id_for_country country with
  | .error e => .error e
  | .ok _ =>
    match fetch country with
    | none => .error (.appStore "Could not parse app store rating response")
    | some body =>
      match parse_rating body with
      | .error e => .error e
      | .ok none => .ok dataset
      | .ok (some ratings) => accumulateRatings dataset ratings

/-- `AppStoreScraper.get_app_ratings` (scraper.py lines 291-346) over an
explicit country list, with the per-country page fetch parameterized. -/
def get_app_ratings (fetch : String → Option (List Char))
    (countries : List String) : Except PyErr PyDict :=
  countries.foldlM (ratingsStep fetch) initialDataset

/-- The accumulation skeleton of `get_app_ratings` starting from a given
running histogram, with fetching and parsing abstracted into a fixed mapping
`counts` from country to its per-country bucket counts. -/
def accumFrom (counts : String → PyDict) (dataset : PyDict)
    (countries : List String) : Except PyErr PyDict :=
  countries.foldlM (fun d c => accumulateRatings d (counts c)) dataset

/-- Accumulating a country list into the all-zero initial histogram. -/
def accumulateCountries (counts : String → PyDict) (countries : List String) :
    Except PyErr PyDict :=
  accumFrom counts initialDataset countries

/-- A concrete three-country mapping of per-country bucket counts, used to
instantiate the accumulation properties. -/
def c2CountsW : String → PyDict := fun c =>
  if c == "de" then [(1, 1), (2, 2), (3, 3), (4, 4), (5, 5)]
  else if c == "fr" then [(1, 10), (2, 0), (3, 0), (4, 0), (5, 1)]
  else [(1, 0), (2, 0), (3, 0), (4, 0), (5, 0)]


/-- The `if flatten:` guard of `get_app_details` (scraper.py lines 220-225). -/
def maybeFlatten (flatten : Bool) (app : Record) : Except PyErr Record :=
  if flatten then flattenRecord app else .ok app

/-- The `if add_ratings:` block of `get_app_details` (scraper.py lines
227-234): a successful ratings call attaches its values (dict insertion
order, stars 1 to 5) as the `histogram` list; an `AppStoreException` from it
is logged and recorded as `histogram = None`; any other exception propagates
(the `except` clause names only `AppStoreException`). -/
def attachHistogram (add_ratings : Bool) (ratings : Except PyErr PyDict)
    (app2 : Record) : Except PyErr Record :=
  if add_ratings then
    match ratings with
    | .ok d => .ok (recordSet app2 "histogram" (.list (d.map (fun kv => Value.i kv.2))))
    | .error (.appStore _) => .ok (recordSet app2 "histogram" Value.null)
    | .error e => .error e
  else
    .ok app2

/-- `AppStoreScraper.get_app_details` (scraper.py lines 161-251) with the
network boundary parameterized: `results` is the `"results"` array of the
lookup response (`none` models a response without that key), and `ratings`
is the outcome of the `get_app_ratings` sub-call.  `results = none` or an
empty array raises the not-found `AppStoreException`; then the flatten guard
and the ratings block run in source order. -/
def get_app_details (app_id : String) (results : Option (List Record))
    (flatten add_ratings : Bool) (ratings : Except PyErr PyDict) :
    Except PyErr Record :=
  match results with
  | none => .error (.appStore ("No app found with ID " ++ app_id))
  | some [] => .error (.appStore ("No app found with ID " ++ app_id))
  | some (app :: _) =>
    match maybeFlatten flatten app with
    | .error e => .error e
    | .ok app2 => attachHistogram add_ratings ratings app2

/-- `AppStoreScraper.get_multiple_app_details` (scraper.py lines 253-274),
with the per-identifier `get_app_details` call parameterized by `details`.
Returns the records the generator yields, paired with the exception that
terminates it, if any: an `AppStoreException` from one identifier is logged
and skipped (`continue`), while any other exception propagates out of the
generator and ends the iteration. -/
def get_multiple_app_details (details : String → Except PyErr Record) :
    List String → List Record × Option PyErr
  | [] => ([], none)
  | app_id :: rest =>
    match details app_id with
    | .ok r =>
      let out := get_multiple_app_details details rest
      (r :: out.1, out.2)
    | .error (.appStore _) => get_multiple_app_details details rest
    | .error e => ([], some e)



/-- The count a per-country dict holds for star `k` (0 when absent). -/
def dictVal (d : PyDict) (k : Int) : Int :=
  (pyGet d k).getD 0

/-- The total the accumulation should give bucket `k` over a country list. -/
def bucketSum (counts : String → PyDict) (k : Int) (l : List String) : Int :=
  (l.map (fun c => dictVal (counts c) k)).sum

/-- The invariant `get_app_ratings` maintains on its dataset: keys exactly
`[1, 2, 3, 4, 5]` in insertion order and all counts non-negative. -/
def histInv (d : PyDict) : Prop :=
  d.map Prod.fst = [1, 2, 3, 4, 5] ∧ ∀ kv ∈ d, 0 ≤ kv.2

/-! ### Helper lemmas -/

/-- With anything other than exactly five star matches, `_parse_rating`
returns `None` without invoking `int()`. -/
theorem parse_rating_eq_none (t : List Char) (h : (findStars t).length ≠ 5) :
    parse_rating t = .ok none := by
  unfold parse_rating
  match hl : findStars t with
  | [] => rfl
  | [_] => rfl
  | [_, _] => rfl
  | [_, _, _] => rfl
  | [_, _, _, _] => rfl
  | [_, _, _, _, _] => exact absurd (by rw [hl]; rfl) h
  | _ :: _ :: _ :: _ :: _ :: _ :: _ => rfl

/-- A successful non-`None` `_parse_rating` result is the five-entry dict
keyed 5 down to 1. -/
theorem parse_rating_shape {t : List Char} {r : PyDict}
    (h : parse_rating t = .ok (some r)) :
    ∃ v5 v4 v3 v2 v1 : Int, r = [(5, v5), (4, v4), (3, v3), (2, v2), (1, v1)] := by
  unfold parse_rating at h
  split at h
  · split at h
    · exact ⟨_, _, _, _, _, by injection h with h; injection h with h; exact h.symm⟩
    · cases h
  · injection h with h; cases h

/-- Flattening a field value never produces a list or dict. -/
theorem flattenValue_isScalar {v w : Value} (h : flattenValue v = .ok w) :
    isScalar w = true := by
  cases v with
  | list vs =>
    have h2 : joinComma vs = .ok w := h
    unfold joinComma at h2
    split at h2
    · injection h2 with h2; rw [← h2]; rfl
    · cases h2
  | dict fs => simp only [flattenValue] at h; injection h with h; rw [← h]; rfl
  | s t => simp only [flattenValue] at h; injection h with h; rw [← h]; rfl
  | i n => simp only [flattenValue] at h; injection h with h; rw [← h]; rfl
  | b bv => simp only [flattenValue] at h; injection h with h; rw [← h]; rfl
  | null => simp only [flattenValue] at h; injection h with h; rw [← h]; rfl

/-- A scalar field value is left unchanged by flattening. -/
theorem flattenValue_eq_of_isScalar {v : Value} (h : isScalar v = true) :
    flattenValue v = .ok v := by
  cases v with
  | list vs => cases h
  | dict fs => cases h
  | s t => rfl
  | i n => rfl
  | b bv => rfl
  | null => rfl

/-- The record produced by a successful flatten pass is flat. -/
theorem flattenRecord_isFlat : ∀ {r out : Record},
    flattenRecord r = .ok out → isFlatRecord out = true := by
  intro r
  induction r with
  | nil =>
    intro out h
    injection h with h
    rw [← h]; rfl
  | cons kv rest ih =>
    intro out h
    obtain ⟨k, v⟩ := kv
    unfold flattenRecord at h
    cases hv : flattenValue v with
    | error e => rw [hv] at h; cases h
    | ok v2 =>
      rw [hv] at h
      cases hr : flattenRecord rest with
      | error e => rw [hr] at h; cases h
      | ok rest2 =>
        rw [hr] at h
        injection h with h
        rw [← h]
        unfold isFlatRecord
        rw [List.all_cons]
        have h1 := flattenValue_isScalar hv
        have h2 := ih hr
        unfold isFlatRecord at h2
        rw [h1, h2]
        rfl

/-- Flattening an already-flat record is the identity. -/
theorem flattenRecord_eq_of_isFlat : ∀ {r : Record},
    isFlatRecord r = true → flattenRecord r = .ok r := by
  intro r
  induction r with
  | nil => intro _; rfl
  | cons kv rest ih =>
    intro h
    obtain ⟨k, v⟩ := kv
    unfold isFlatRecord at h
    rw [List.all_cons, Bool.and_eq_true] at h
    unfold flattenRecord
    rw [flattenValue_eq_of_isScalar h.1, ih h.2]

/-- Every field of `recordSet r key v` other than `key` comes from `r`. -/
theorem mem_of_mem_recordSet {r : Record} {key : String} {v : Value}
    {kv : String × Value} (hm : kv ∈ recordSet r key v) (hk : kv.1 ≠ key) :
    kv ∈ r := by
  unfold recordSet at hm
  split at hm
  · obtain ⟨p, hp, he⟩ := List.mem_map.mp hm
    by_cases hpk : p.1 = key
    · rw [if_pos hpk] at he
      exact absurd (by rw [← he]) hk
    · rw [if_neg hpk] at he
      rw [← he]; exact hp
  · rcases List.mem_append.mp hm with h | h
    · exact h
    · rw [List.mem_singleton] at h
      exact absurd (by rw [h]) hk

/-- A dict whose key list is `[1, 2, 3, 4, 5]` is exactly a five-entry
association list with those keys in order. -/
theorem dict_shape : ∀ (d : PyDict), d.map Prod.fst = [1, 2, 3, 4, 5] →
    ∃ a b c e f : Int, d = [(1, a), (2, b), (3, c), (4, e), (5, f)] := by
  intro d h
  cases d with
  | nil => cases h
  | cons p1 t1 =>
  cases t1 with
  | nil => simp at h
  | cons p2 t2 =>
  cases t2 with
  | nil => simp at h
  | cons p3 t3 =>
  cases t3 with
  | nil => simp at h
  | cons p4 t4 =>
  cases t4 with
  | nil => simp at h
  | cons p5 t5 =>
  cases t5 with
  | cons p6 t6 => simp at h
  | nil =>
    obtain ⟨k1, a⟩ := p1
    obtain ⟨k2, b⟩ := p2
    obtain ⟨k3, c⟩ := p3
    obtain ⟨k4, e⟩ := p4
    obtain ⟨k5, f⟩ := p5
    simp only [List.map_cons, List.map_nil, List.cons.injEq, and_true] at h
    obtain ⟨h1, h2, h3, h4, h5⟩ := h
    subst h1; subst h2; subst h3; subst h4; subst h5
    exact ⟨a, b, c, e, f, rfl⟩

/-- The five accumulation lines on explicitly shaped dicts: outer histogram
keyed 1..5, parsed per-country dict keyed 5..1 as `_parse_rating` builds it. -/
theorem accumulateRatings_parsed (a b c e f v1 v2 v3 v4 v5 : Int) :
    accumulateRatings [(1, a), (2, b), (3, c), (4, e), (5, f)]
        [(5, v5), (4, v4), (3, v3), (2, v2), (1, v1)]
      = .ok [(1, a + v1), (2, b + v2), (3, c + v3), (4, e + v4), (5, f + v5)] := rfl

/-- The five accumulation lines when both dicts are keyed 1..5 in order. -/
theorem accumulateRatings_ordered (a b c e f v1 v2 v3 v4 v5 : Int) :
    accumulateRatings [(1, a), (2, b), (3, c), (4, e), (5, f)]
        [(1, v1), (2, v2), (3, v3), (4, v4), (5, v5)]
      = .ok [(1, a + v1), (2, b + v2), (3, c + v3), (4, e + v4), (5, f + v5)] := rfl

theorem except_bind_ok {ε α β : Type} (x : α) (f : α → Except ε β) :
    (Except.ok x >>= f) = f x := rfl

theorem except_bind_error {ε α β : Type} (e : ε) (f : α → Except ε β) :
    ((Except.error e : Except ε α) >>= f) = .error e := rfl

/-- Closed form of the accumulation skeleton: starting from an explicit
five-bucket histogram, folding a country list of well-keyed per-country
counts adds the per-bucket sums. -/
theorem accumFrom_eq (counts : String → PyDict)
    (hkeys : ∀ c, (counts c).map Prod.fst = [1, 2, 3, 4, 5]) :
    ∀ (l : List String) (a b c e f : Int),
    accumFrom counts [(1, a), (2, b), (3, c), (4, e), (5, f)] l =
      .ok [(1, a + bucketSum counts 1 l), (2, b + bucketSum counts 2 l),
           (3, c + bucketSum counts 3 l), (4, e + bucketSum counts 4 l),
           (5, f + bucketSum counts 5 l)] := by
  intro l
  induction l with
  | nil =>
    intro a b c e f
    simp only [accumFrom, List.foldlM, bucketSum, List.map_nil, List.sum_nil, add_zero]
    rfl
  | cons x xs ih =>
    intro a b c e f
    obtain ⟨va, vb, vc, ve, vf, hx⟩ := dict_shape (counts x) (hkeys x)
    have hstep : accumFrom counts [(1, a), (2, b), (3, c), (4, e), (5, f)] (x :: xs)
        = accumFrom counts [(1, a + va), (2, b + vb), (3, c + vc), (4, e + ve), (5, f + vf)] xs := by
      simp only [accumFrom, List.foldlM]
      rw [hx, accumulateRatings_ordered, except_bind_ok]
    have d1 : dictVal [(1, va), (2, vb), (3, vc), (4, ve), (5, vf)] 1 = va := rfl
    have d2 : dictVal [(1, va), (2, vb), (3, vc), (4, ve), (5, vf)] 2 = vb := rfl
    have d3 : dictVal [(1, va), (2, vb), (3, vc), (4, ve), (5, vf)] 3 = vc := rfl
    have d4 : dictVal [(1, va), (2, vb), (3, vc), (4, ve), (5, vf)] 4 = ve := rfl
    have d5 : dictVal [(1, va), (2, vb), (3, vc), (4, ve), (5, vf)] 5 = vf := rfl
    rw [hstep, ih]
    simp only [bucketSum, List.map_cons, List.sum_cons, hx, d1, d2, d3, d4, d5, add_assoc]

/-- `ratingsStep` when the storefront resolution fails. -/
theorem ratingsStep_resolve_error {fetch : String → Option (List Char)}
    {d : PyDict} {c : String} {e : PyErr}
    (h : get_store_id_for_country c = .error e) :
    ratingsStep fetch d c = .error e := by
  unfold ratingsStep; rw [h]

/-- `ratingsStep` when the storefront resolves but both fetch attempts fail. -/
theorem ratingsStep_fetch_none {fetch : String → Option (List Char)}
    {d : PyDict} {c : String} {sid : Nat}
    (hres : get_store_id_for_country c = .ok sid) (hf : fetch c = none) :
    ratingsStep fetch d c = .error (.appStore "Could not parse app store rating response") := by
  unfold ratingsStep; rw [hres, hf]

/-- `ratingsStep` when a page body is fetched: the outcome is decided by
`_parse_rating`. -/
theorem ratingsStep_of_body {fetch : String → Option (List Char)}
    {d : PyDict} {c : String} {sid : Nat} {body : List Char}
    (hres : get_store_id_for_country c = .ok sid) (hf : fetch c = some body) :
    ratingsStep fetch d c =
      (match parse_rating body with
       | .error e => .error e
       | .ok none => .ok d
       | .ok (some ratings) => accumulateRatings d ratings) := by
  unfold ratingsStep; rw [hres, hf]

/-- One country iteration preserves the dataset invariant, provided the
values the page parses to are non-negative. -/
theorem ratingsStep_inv {fetch : String → Option (List Char)} {d0 d1 : PyDict}
    {c : String} (hstep : ratingsStep fetch d0 c = .ok d1) (hinv : histInv d0)
    (hnn : ∀ body r, fetch c = some body → parse_rating body = .ok (some r) →
      ∀ kv ∈ r, 0 ≤ kv.2) :
    histInv d1 := by
  cases hres : get_store_id_for_country c with
  | error e => rw [ratingsStep_resolve_error hres] at hstep; cases hstep
  | ok sid =>
    cases hf : fetch c with
    | none => rw [ratingsStep_fetch_none hres hf] at hstep; cases hstep
    | some body =>
      rw [ratingsStep_of_body hres hf] at hstep
      cases hp : parse_rating body with
      | error e => rw [hp] at hstep; simp only [] at hstep; cases hstep
      | ok o =>
        cases o with
        | none =>
          rw [hp] at hstep
          simp only [] at hstep
          injection hstep with h
          rw [← h]; exact hinv
        | some r =>
          rw [hp] at hstep
          simp only [] at hstep
          obtain ⟨v5, v4, v3, v2, v1, hr⟩ := parse_rating_shape hp
          obtain ⟨a, b, c2, e2, f2, hd⟩ := dict_shape d0 hinv.1
          subst hr; subst hd
          rw [accumulateRatings_parsed] at hstep
          injection hstep with h
          rw [← h]
          refine ⟨rfl, ?_⟩
          have hnr := hnn body _ hf hp
          have ha : 0 ≤ a := hinv.2 (1, a) (by simp)
          have hb : 0 ≤ b := hinv.2 (2, b) (by simp)
          have hc : 0 ≤ c2 := hinv.2 (3, c2) (by simp)
          have he : 0 ≤ e2 := hinv.2 (4, e2) (by simp)
          have hf5 : 0 ≤ f2 := hinv.2 (5, f2) (by simp)
          have h1 : 0 ≤ v1 := hnr (1, v1) (by simp)
          have h2 : 0 ≤ v2 := hnr (2, v2) (by simp)
          have h3 : 0 ≤ v3 := hnr (3, v3) (by simp)
          have h4 : 0 ≤ v4 := hnr (4, v4) (by simp)
          have h5 : 0 ≤ v5 := hnr (5, v5) (by simp)
          intro kv hm
          simp only [List.mem_cons, List.not_mem_nil, or_false] at hm
          rcases hm with rfl | rfl | rfl | rfl | rfl
          · exact add_nonneg ha h1
          · exact add_nonneg hb h2
          · exact add_nonneg hc h3
          · exact add_nonneg he h4
          · exact add_nonneg hf5 h5

/-- The whole country fold preserves the invariant. -/
theorem get_app_ratings_inv {fetch : String → Option (List Char)} :
    ∀ (countries : List String) (d0 d : PyDict), histInv d0 →
    (∀ c ∈ countries, ∀ body r, fetch c = some body →
      parse_rating body = .ok (some r) → ∀ kv ∈ r, 0 ≤ kv.2) →
    countries.foldlM (ratingsStep fetch) d0 = .ok d → histInv d := by
  intro countries
  induction countries with
  | nil =>
    intro d0 d h0 _ hf
    cases hf
    exact h0
  | cons x xs ih =>
    intro d0 d h0 hnn hf
    simp only [List.foldlM] at hf
    cases hs : ratingsStep fetch d0 x with
    | error e => rw [hs, except_bind_error] at hf; cases hf
    | ok d1 =>
      rw [hs, except_bind_ok] at hf
      exact ih d1 d (ratingsStep_inv hs h0 (hnn x (by simp)))
        (fun c hc => hnn c (by simp [hc])) hf

/-- One country iteration preserves the key list of the dataset,
independently of the sign of the parsed totals. -/
theorem ratingsStep_keys {fetch : String → Option (List Char)} {d0 d1 : PyDict}
    {c : String} (hstep : ratingsStep fetch d0 c = .ok d1)
    (hk : d0.map Prod.fst = [1, 2, 3, 4, 5]) :
    d1.map Prod.fst = [1, 2, 3, 4, 5] := by
  cases hres : get_store_id_for_country c with
  | error e => rw [ratingsStep_resolve_error hres] at hstep; cases hstep
  | ok sid =>
    cases hf : fetch c with
    | none => rw [ratingsStep_fetch_none hres hf] at hstep; cases hstep
    | some body =>
      rw [ratingsStep_of_body hres hf] at hstep
      cases hp : parse_rating body with
      | error e => rw [hp] at hstep; simp only [] at hstep; cases hstep
      | ok o =>
        cases o with
        | none =>
          rw [hp] at hstep
          simp only [] at hstep
          injection hstep with h
          rw [← h]; exact hk
        | some r =>
          rw [hp] at hstep
          simp only [] at hstep
          obtain ⟨v5, v4, v3, v2, v1, hr⟩ := parse_rating_shape hp
          obtain ⟨a, b, c2, e2, f2, hd⟩ := dict_shape d0 hk
          subst hr; subst hd
          rw [accumulateRatings_parsed] at hstep
          injection hstep with h
          rw [← h]
          rfl

/-- The whole country fold preserves the key list, for every fetch outcome
(no sign condition on the parsed totals). -/
theorem get_app_ratings_keys {fetch : String → Option (List Char)} :
    ∀ (countries : List String) (d0 d : PyDict),
    d0.map Prod.fst = [1, 2, 3, 4, 5] →
    countries.foldlM (ratingsStep fetch) d0 = .ok d →
    d.map Prod.fst = [1, 2, 3, 4, 5] := by
  intro countries
  induction countries with
  | nil =>
    intro d0 d h0 hf
    cases hf
    exact h0
  | cons x xs ih =>
    intro d0 d h0 hf
    simp only [List.foldlM] at hf
    cases hs : ratingsStep fetch d0 x with
    | error e => rw [hs, except_bind_error] at hf; cases hf
    | ok d1 =>
      rw [hs, except_bind_ok] at hf
      exact ih d1 d (ratingsStep_keys hs h0) hf

/-- The generator never yields more records than it was given identifiers. -/
theorem multiple_length_le (details : String → Except PyErr Record) :
    ∀ ids : List String,
    (get_multiple_app_details details ids).1.length ≤ ids.length := by
  intro ids
  induction ids with
  | nil => exact Nat.le_refl 0
  | cons x xs ih =>
    unfold get_multiple_app_details
    cases hd : details x with
    | ok r =>
      simp only []
      exact Nat.succ_le_succ ih
    | error e =>
      cases e with
      | appStore m => exact Nat.le_trans ih (Nat.le_succ _)
      | typeError => exact Nat.le_trans (Nat.zero_le _) (Nat.le_succ _)
      | valueError => exact Nat.le_trans (Nat.zero_le _) (Nat.le_succ _)
      | keyError => exact Nat.le_trans (Nat.zero_le _) (Nat.le_succ _)
      | unboundLocal n => exact Nat.le_trans (Nat.zero_le _) (Nat.le_succ _)

/-- When every identifier either succeeds or fails with `AppStoreException`,
the generator yields exactly the successful records in input order and
finishes without raising. -/
theorem multiple_eq_filterMap (details : String → Except PyErr Record) :
    ∀ ids : List String,
    (∀ i ∈ ids, (∃ r, details i = .ok r) ∨ (∃ m, details i = .error (.appStore m))) →
    get_multiple_app_details details ids
      = (ids.filterMap (fun i => (details i).toOption), none) := by
  intro ids
  induction ids with
  | nil => intro _; rfl
  | cons x xs ih =>
    intro h
    have hrest := ih (fun i hi => h i (List.mem_cons_of_mem x hi))
    rcases h x (List.mem_cons_self x xs) with ⟨r, hr⟩ | ⟨m, hm⟩
    · unfold get_multiple_app_details
      rw [hr]
      simp only []
      rw [hrest, List.filterMap_cons, hr]
      rfl
    · unfold get_multiple_app_details
      rw [hm]
      simp only []
      rw [hrest, List.filterMap_cons, hm]
      rfl

/-! ### Claim theorems -/

/-- C4: for every code whose upper-cased form is in the fixed market table,
`get_store_id_for_country` returns the storefront id listed there (hence is
case-insensitive: the result depends only on the upper-cased code); for every
code whose upper-cased form is absent it fails with the lookup
`AppStoreException`.  The resolver is a pure function (no I/O in the model or
the source). -/
theorem c4_store_resolver (c : String) :
    (∀ v, marketsTable.lookup (upperString c) = some v →
      get_store_id_for_country c = .ok v) ∧
    (marketsTable.lookup (upperString c) = none →
      get_store_id_for_country c =
        .error (.appStore ("Country code not found for " ++ upperString c))) ∧
    (∀ c2 : String, upperString c = upperString c2 →
      get_store_id_for_country c = get_store_id_for_country c2) := by
  refine ⟨?_, ?_, ?_⟩
  · intro v hv
    unfold get_store_id_for_country
    rw [hv]
  · intro hv
    unfold get_store_id_for_country
    rw [hv]
  · intro c2 h
    unfold get_store_id_for_country
    rw [h]

/-- C4 witness: concrete instantiations of all three parts at "us"/"US" and
the out-of-table code "xx". -/
theorem c4_store_resolver_witness :
    get_store_id_for_country "us" = .ok 143441 ∧
    get_store_id_for_country "us" = get_store_id_for_country "US" ∧
    get_store_id_for_country "xx" =
      .error (.appStore ("Country code not found for " ++ upperString "xx")) :=
  ⟨(c4_store_resolver "us").1 143441 rfl,
   (c4_store_resolver "us").2.2 "US" rfl,
   (c4_store_resolver "xx").2.1 rfl⟩

/-- C8 (code-bug evidence): an unknown category name makes
`get_app_from_collection_category` fail with `UnboundLocalError` (the
`hasattr` guard has no `else`, so `category_data` is never assigned), not
with the scraper's single `AppStoreException` error kind — in contrast to the
country resolver, whose invalid-key failure does use it. -/
theorem c8_collection_category_unbound_local :
    get_app_from_collection_category "top-free" "NOT_A_CATEGORY" "iphone" "us"
        (fun _ => []) = .error (.unboundLocal "category_data") ∧
    get_store_id_for_country "zz" =
      .error (.appStore "Country code not found for ZZ") :=
  ⟨rfl, rfl⟩

/-- C6: the flatten transform is the identity on a record whose fields are
all scalar, and therefore re-applying it to its own output is a no-op. -/
theorem c6_flatten_idempotent (r b : Record) :
    (isFlatRecord r = true → flattenRecord r = .ok r) ∧
    (flattenRecord r = .ok b → flattenRecord b = .ok b) := by
  constructor
  · exact flattenRecord_eq_of_isFlat
  · intro h
    exact flattenRecord_eq_of_isFlat (flattenRecord_isFlat h)

/-- C6 witness: a concrete two-field scalar record is left unchanged. -/
theorem c6_flatten_idempotent_witness :
    isFlatRecord [("trackName", Value.s "App"), ("price", Value.i 0)] = true ∧
    flattenRecord [("trackName", Value.s "App"), ("price", Value.i 0)]
      = .ok [("trackName", Value.s "App"), ("price", Value.i 0)] :=
  ⟨rfl, (c6_flatten_idempotent [("trackName", Value.s "App"), ("price", Value.i 0)] []).1 rfl⟩

/-- C5 counterexample: with `flatten=True`, `add_ratings=True` and a
successful ratings sub-call, the returned record holds the `histogram` field
whose value is a list, so the record is not one-level-deep. -/
theorem c5_not_flat_counterexample :
    get_app_details "123" (some [[("trackName", Value.s "App")]]) true true
        (.ok [(1, 2), (2, 0), (3, 0), (4, 0), (5, 1)])
      = .ok [("trackName", Value.s "App"),
             ("histogram", Value.list [.i 2, .i 0, .i 0, .i 0, .i 1])] ∧
    isFlatRecord [("trackName", Value.s "App"),
             ("histogram", Value.list [.i 2, .i 0, .i 0, .i 0, .i 1])] = false :=
  ⟨rfl, rfl⟩

/-- C5 (amended): with `flatten=True` the returned record is one-level-deep
in every field except possibly `histogram`; in particular with
`add_ratings=False` it is one-level-deep in every field.  (As stated over
every setting of `add_ratings` the claim fails: a successful ratings call
stores a list under `histogram` after flattening has run, see the
counterexample.) -/
theorem c5_flatten_one_level (app_id : String) (app : Record)
    (rest : List Record) (ratings : Except PyErr PyDict) (out : Record) :
    (get_app_details app_id (some (app :: rest)) true false ratings = .ok out →
      isFlatRecord out = true) ∧
    (get_app_details app_id (some (app :: rest)) true true ratings = .ok out →
      ∀ kv ∈ out, kv.1 ≠ "histogram" → isScalar kv.2 = true) := by
  constructor
  · intro h
    unfold get_app_details at h
    simp only [] at h
    rw [show maybeFlatten true app = flattenRecord app from rfl] at h
    cases hf : flattenRecord app with
    | error e => rw [hf] at h; cases h
    | ok app2 =>
      rw [hf] at h
      simp only [] at h
      rw [show attachHistogram false ratings app2 = .ok app2 from rfl] at h
      injection h with h
      rw [← h]
      exact flattenRecord_isFlat hf
  · intro h kv hm hk
    unfold get_app_details at h
    simp only [] at h
    rw [show maybeFlatten true app = flattenRecord app from rfl] at h
    cases hf : flattenRecord app with
    | error e => rw [hf] at h; cases h
    | ok app2 =>
      rw [hf] at h
      simp only [] at h
      have hflat : ∀ p ∈ app2, isScalar p.2 = true := by
        have := flattenRecord_isFlat hf
        unfold isFlatRecord at this
        exact fun p hp => List.all_eq_true.mp this p hp
      unfold attachHistogram at h
      cases ratings with
      | ok d =>
        simp only [if_true] at h
        injection h with h
        rw [← h] at hm
        exact hflat kv (mem_of_mem_recordSet hm hk)
      | error e =>
        cases e with
        | appStore m =>
          simp only [if_true] at h
          injection h with h
          rw [← h] at hm
          exact hflat kv (mem_of_mem_recordSet hm hk)
        | typeError => simp only [if_true] at h; cases h
        | valueError => simp only [if_true] at h; cases h
        | keyError => simp only [if_true] at h; cases h
        | unboundLocal n => simp only [if_true] at h; cases h

/-- C5 witness: both parts instantiated on a concrete record with a list
field that flattening collapses. -/
theorem c5_flatten_one_level_witness :
    get_app_details "1" (some [[("genres", Value.list [.s "Games", .s "Action"])]])
        true false (.ok initialDataset)
      = .ok [("genres", Value.s "Games,Action")] ∧
    isFlatRecord [("genres", Value.s "Games,Action")] = true ∧
    get_app_details "1" (some [[("genres", Value.list [.s "Games", .s "Action"])]])
        true true (.error (.appStore "no ratings"))
      = .ok [("genres", Value.s "Games,Action"), ("histogram", Value.null)] ∧
    isScalar (Value.s "Games,Action") = true :=
  ⟨rfl,
   (c5_flatten_one_level "1" [("genres", Value.list [.s "Games", .s "Action"])] []
      (.ok initialDataset) [("genres", Value.s "Games,Action")]).1 rfl,
   rfl,
   (c5_flatten_one_level "1" [("genres", Value.list [.s "Games", .s "Action"])] []
      (.error (.appStore "no ratings"))
      [("genres", Value.s "Games,Action"), ("histogram", Value.null)]).2 rfl
      ("genres", Value.s "Games,Action") (by simp) (by decide)⟩

/-- C3: `get_app_details` raises the not-found `AppStoreException` when the
upstream response has no `results` key or an empty `results` array; and with
`add_ratings=True`, a ratings failure (which the spec defines as the single
scraper error kind) is swallowed: the call returns the flattened base record
with `histogram` set to null. -/
theorem c3_details_notfound_and_null_histogram (app_id : String)
    (flatten add_ratings : Bool) (ratings : Except PyErr PyDict)
    (app flat : Record) (rest : List Record) (msg : String)
    (hflat : flattenRecord app = .ok flat)
    (hr : ratings = .error (.appStore msg)) :
    get_app_details app_id none flatten add_ratings ratings
      = .error (.appStore ("No app found with ID " ++ app_id)) ∧
    get_app_details app_id (some []) flatten add_ratings ratings
      = .error (.appStore ("No app found with ID " ++ app_id)) ∧
    get_app_details app_id (some (app :: rest)) true true ratings
      = .ok (recordSet flat "histogram" Value.null) := by
  refine ⟨rfl, rfl, ?_⟩
  unfold get_app_details
  simp only []
  rw [show maybeFlatten true app = flattenRecord app from rfl, hflat]
  simp only []
  rw [hr]
  rfl

/-- C3 witness: all three parts at a concrete record and ratings failure. -/
theorem c3_details_notfound_and_null_histogram_witness :
    get_app_details "42" none true true (.error (.appStore "down"))
      = .error (.appStore "No app found with ID 42") ∧
    get_app_details "42" (some []) true true (.error (.appStore "down"))
      = .error (.appStore "No app found with ID 42") ∧
    get_app_details "42" (some [[("trackName", Value.s "App")]]) true true
        (.error (.appStore "down"))
      = .ok (recordSet [("trackName", Value.s "App")] "histogram" Value.null) :=
  c3_details_notfound_and_null_histogram "42" true true
    (.error (.appStore "down")) [("trackName", Value.s "App")]
    [("trackName", Value.s "App")] [] "down" rfl rfl

/-- C10: when a page yields exactly five star fragments, `_parse_rating`
assigns them in descending star order: the first match becomes the 5-star
count, then 4, 3, 2, and the fifth match becomes the 1-star count. -/
theorem c10_parse_rating_descending (t m5 m4 m3 m2 m1 : List Char)
    (v5 v4 v3 v2 v1 : Int)
    (hm : findStars t = [m5, m4, m3, m2, m1])
    (h5 : pyInt (cleanMatch m5) = some v5)
    (h4 : pyInt (cleanMatch m4) = some v4)
    (h3 : pyInt (cleanMatch m3) = some v3)
    (h2 : pyInt (cleanMatch m2) = some v2)
    (h1 : pyInt (cleanMatch m1) = some v1) :
    parse_rating t = .ok (some [(5, v5), (4, v4), (3, v3), (2, v2), (1, v1)]) := by
  unfold parse_rating
  rw [hm]
  simp only []
  rw [h5, h4, h3, h2, h1]

/-- C10 witness: a concrete five-fragment page parses with the first
fragment (50) as the 5-star count down to the last fragment (10) as the
1-star count. -/
theorem c10_parse_rating_descending_witness :
    findStars ("<span class=\"total\">50</span><span class=\"total\">40</span><span class=\"total\">30</span><span class=\"total\">20</span><span class=\"total\">10</span>").data
      = ["<span class=\"total\">50</span>".data, "<span class=\"total\">40</span>".data,
         "<span class=\"total\">30</span>".data, "<span class=\"total\">20</span>".data,
         "<span class=\"total\">10</span>".data] ∧
    parse_rating ("<span class=\"total\">50</span><span class=\"total\">40</span><span class=\"total\">30</span><span class=\"total\">20</span><span class=\"total\">10</span>").data
      = .ok (some [(5, 50), (4, 40), (3, 30), (2, 20), (1, 10)]) :=
  ⟨rfl,
   c10_parse_rating_descending
     ("<span class=\"total\">50</span><span class=\"total\">40</span><span class=\"total\">30</span><span class=\"total\">20</span><span class=\"total\">10</span>").data
     "<span class=\"total\">50</span>".data "<span class=\"total\">40</span>".data
     "<span class=\"total\">30</span>".data "<span class=\"total\">20</span>".data
     "<span class=\"total\">10</span>".data
     50 40 30 20 10 rfl rfl rfl rfl rfl rfl⟩

/-- C1: for a country whose storefront resolves and whose review page is
fetched, if the page does not yield exactly five star fragments then the
iteration neither raises nor changes any bucket of the running histogram,
and removing that country anywhere in the country list leaves the whole
`get_app_ratings` result unchanged. -/
theorem c1_bad_fragment_count_contributes_zero
    (fetch : String → Option (List Char)) (dataset : PyDict) (country : String)
    (sid : Nat) (body : List Char)
    (hsid : get_store_id_for_country country = .ok sid)
    (hbody : fetch country = some body)
    (hlen : (findStars body).length ≠ 5) :
    ratingsStep fetch dataset country = .ok dataset ∧
    ∀ pre post : List String,
      get_app_ratings fetch (pre ++ country :: post)
        = get_app_ratings fetch (pre ++ post) := by
  have hstep : ∀ d : PyDict, ratingsStep fetch d country = .ok d := by
    intro d
    rw [ratingsStep_of_body hsid hbody, parse_rating_eq_none body hlen]
  refine ⟨hstep dataset, ?_⟩
  intro pre post
  unfold get_app_ratings
  rw [List.foldlM_append, List.foldlM_append]
  congr 1
  funext d
  simp only [List.foldlM]
  rw [hstep d, except_bind_ok]

/-- C1 witness: a page with zero fragments leaves the initial dataset
untouched and drops out of a concrete two-country run. -/
theorem c1_bad_fragment_count_contributes_zero_witness :
    ratingsStep (fun _ => some "no stars here".data) initialDataset "us"
      = .ok initialDataset ∧
    get_app_ratings (fun _ => some "no stars here".data) (["de"] ++ "us" :: [])
      = get_app_ratings (fun _ => some "no stars here".data) (["de"] ++ []) := by
  have h := c1_bad_fragment_count_contributes_zero
    (fun _ => some "no stars here".data) initialDataset "us" 143441
    "no stars here".data rfl rfl (by decide)
  exact ⟨h.1, h.2 ["de"] []⟩

/-- C7: `get_multiple_app_details` never yields more records than it was
given identifiers; when every identifier either succeeds or fails with the
scraper error kind it yields exactly the successful records in input order
(skipping, not raising, the scraper-error ones); and over
`[valid, invalid, valid]` it yields exactly the two valid records. -/
theorem c7_multiple_app_details (details : String → Except PyErr Record)
    (ids : List String)
    (hok : ∀ i ∈ ids, (∃ r, details i = .ok r) ∨
      (∃ m, details i = .error (.appStore m))) :
    (∀ ids2 : List String,
      (get_multiple_app_details details ids2).1.length ≤ ids2.length) ∧
    get_multiple_app_details details ids
      = (ids.filterMap (fun i => (details i).toOption), none) ∧
    (∀ a b c ra rc m, details a = .ok ra → details b = .error (.appStore m) →
      details c = .ok rc →
      get_multiple_app_details details [a, b, c] = ([ra, rc], none)) := by
  refine ⟨multiple_length_le details, multiple_eq_filterMap details ids hok, ?_⟩
  intro a b c ra rc m ha hb hc
  unfold get_multiple_app_details
  rw [ha]
  simp only []
  unfold get_multiple_app_details
  rw [hb]
  simp only []
  unfold get_multiple_app_details
  rw [hc]
  rfl

/-- C7 witness: a concrete `[valid, invalid, valid]` run yielding exactly
the two valid records, with all three parts instantiated. -/
theorem c7_multiple_app_details_witness :
    (get_multiple_app_details
        (fun i => if i == "bad" then .error (.appStore "no app") else .ok [("id", .s i)])
        ["a", "bad", "c"]).1.length ≤ 3 ∧
    get_multiple_app_details
        (fun i => if i == "bad" then .error (.appStore "no app") else .ok [("id", .s i)])
        ["a", "bad", "c"]
      = ([[("id", Value.s "a")], [("id", Value.s "c")]], none) := by
  have h := c7_multiple_app_details
    (fun i => if i == "bad" then .error (.appStore "no app") else .ok [("id", .s i)])
    ["a", "bad", "c"]
    (by
      intro i hi
      simp only [List.mem_cons, List.not_mem_nil, or_false] at hi
      rcases hi with rfl | rfl | rfl
      · exact Or.inl ⟨[("id", .s "a")], rfl⟩
      · exact Or.inr ⟨"no app", rfl⟩
      · exact Or.inl ⟨[("id", .s "c")], rfl⟩)
  exact ⟨h.1 ["a", "bad", "c"], by rw [h.2.1]; rfl⟩

/-- C2: with a fixed mapping from country to well-keyed five-bucket counts,
the accumulation of `get_app_ratings` is associative (folding `[A, B]` and
then `[C]` from the intermediate histogram equals folding `[A, B, C]`) and
order-independent (any permutation of the country list yields the same
bucket totals). -/
theorem c2_accumulation_order_independent (counts : String → PyDict)
    (hkeys : ∀ c, (counts c).map Prod.fst = [1, 2, 3, 4, 5]) :
    (∀ A B C : String,
      (accumulateCountries counts [A, B] >>= fun d => accumFrom counts d [C])
        = accumulateCountries counts [A, B, C]) ∧
    (∀ l l' : List String, l.Perm l' →
      accumulateCountries counts l = accumulateCountries counts l') := by
  constructor
  · intro A B C
    unfold accumulateCountries accumFrom
    rw [show ([A, B, C] : List String) = [A, B] ++ [C] from rfl,
      List.foldlM_append]
  · intro l l' hp
    unfold accumulateCountries
    rw [show initialDataset = [((1 : Int), (0 : Int)), (2, 0), (3, 0), (4, 0), (5, 0)] from rfl]
    rw [accumFrom_eq counts hkeys l, accumFrom_eq counts hkeys l']
    have hsum : ∀ k : Int, bucketSum counts k l = bucketSum counts k l' := by
      intro k
      exact List.Perm.sum_eq (hp.map _)
    rw [hsum 1, hsum 2, hsum 3, hsum 4, hsum 5]

/-- C2 witness: concrete counts for three countries, checked for the
`[A, B]`-then-`[C]` split and for a transposition of the list. -/
theorem c2_accumulation_order_independent_witness :
    ((accumulateCountries c2CountsW ["de", "fr"] >>= fun d => accumFrom c2CountsW d ["us"])
      = accumulateCountries c2CountsW ["de", "fr", "us"]) ∧
    accumulateCountries c2CountsW ["de", "fr", "us"]
      = accumulateCountries c2CountsW ["us", "fr", "de"] := by
  have h := c2_accumulation_order_independent c2CountsW (by
    intro c
    unfold c2CountsW
    split
    · rfl
    · split
      · rfl
      · rfl)
  refine ⟨h.1 "de" "fr" "us", h.2 ["de", "fr", "us"] ["us", "fr", "de"] ?_⟩
  decide

/-- C9 (amended): whenever `get_app_ratings` returns a histogram its keys
are exactly `{1, 2, 3, 4, 5}` in order — unconditionally, for every fetch
outcome, negative parsed totals included; the histogram starts at all zeros
(the empty country list returns it unchanged); and every count is
non-negative provided each fetched page parses only to non-negative totals.
(As stated over every page body the non-negativity fails: a page whose
fragment totals are negative integers drives buckets negative, see the
counterexample.) -/
theorem c9_histogram_invariants (fetch : String → Option (List Char))
    (countries : List String) (d : PyDict)
    (hres : get_app_ratings fetch countries = .ok d) :
    d.map Prod.fst = [1, 2, 3, 4, 5] ∧
    get_app_ratings fetch [] = .ok [(1, 0), (2, 0), (3, 0), (4, 0), (5, 0)] ∧
    ((∀ c ∈ countries, ∀ body r, fetch c = some body →
        parse_rating body = .ok (some r) → ∀ kv ∈ r, 0 ≤ kv.2) →
      ∀ kv ∈ d, 0 ≤ kv.2) := by
  refine ⟨get_app_ratings_keys countries initialDataset d rfl hres, rfl, ?_⟩
  intro hnn
  have h0 : histInv initialDataset := by
    constructor
    · rfl
    · intro kv hm
      simp only [initialDataset, List.mem_cons, List.not_mem_nil, or_false] at hm
      rcases hm with rfl | rfl | rfl | rfl | rfl <;> exact le_refl 0
  exact (get_app_ratings_inv countries initialDataset d h0 hnn hres).2

/-- C9 witness: the keys conclusion instantiated on a non-negative run and
also on the all-negative run (showing it needs no sign condition), and
non-negativity of the 1-star count on the former. -/
theorem c9_histogram_invariants_witness :
    (List.map Prod.fst [((1 : Int), (10 : Int)), (2, 20), (3, 30), (4, 40), (5, 50)]
      = [1, 2, 3, 4, 5]) ∧
    (List.map Prod.fst [((1 : Int), (-3 : Int)), (2, -3), (3, -3), (4, -3), (5, -3)]
      = [1, 2, 3, 4, 5]) ∧
    (0 : Int) ≤ (10 : Int) := by
  have hbody : parse_rating ("<span class=\"total\">50</span><span class=\"total\">40</span><span class=\"total\">30</span><span class=\"total\">20</span><span class=\"total\">10</span>").data
      = .ok (some [(5, 50), (4, 40), (3, 30), (2, 20), (1, 10)]) := rfl
  have hrun : get_app_ratings
      (fun _ => some ("<span class=\"total\">50</span><span class=\"total\">40</span><span class=\"total\">30</span><span class=\"total\">20</span><span class=\"total\">10</span>").data)
      ["us"] = .ok [(1, 10), (2, 20), (3, 30), (4, 40), (5, 50)] := rfl
  have hrunNeg : get_app_ratings
      (fun _ => some ("<span class=\"total\">-3</span><span class=\"total\">-3</span><span class=\"total\">-3</span><span class=\"total\">-3</span><span class=\"total\">-3</span>").data)
      ["us"] = .ok [(1, -3), (2, -3), (3, -3), (4, -3), (5, -3)] := rfl
  have h := c9_histogram_invariants
    (fun _ => some ("<span class=\"total\">50</span><span class=\"total\">40</span><span class=\"total\">30</span><span class=\"total\">20</span><span class=\"total\">10</span>").data)
    ["us"] [(1, 10), (2, 20), (3, 30), (4, 40), (5, 50)] hrun
  have hneg := c9_histogram_invariants
    (fun _ => some ("<span class=\"total\">-3</span><span class=\"total\">-3</span><span class=\"total\">-3</span><span class=\"total\">-3</span><span class=\"total\">-3</span>").data)
    ["us"] [(1, -3), (2, -3), (3, -3), (4, -3), (5, -3)] hrunNeg
  refine ⟨h.1, hneg.1, h.2.2 ?_ (1, 10) (by simp)⟩
  intro c hc body r hb hp kv hm
  injection hb with hb
  rw [← hb] at hp
  rw [hbody] at hp
  injection hp with hp
  injection hp with hp
  rw [← hp] at hm
  simp only [List.mem_cons, List.not_mem_nil, or_false] at hm
  rcases hm with rfl | rfl | rfl | rfl | rfl <;> decide

/-- C9 counterexample: a review page whose five totals read "-3" makes
`get_app_ratings` return a histogram with every count negative, refuting
"every count is a non-negative integer" over arbitrary fetched bodies. -/
theorem c9_negative_count_counterexample :
    get_app_ratings (fun _ => some ("<span class=\"total\">-3</span><span class=\"total\">-3</span><span class=\"total\">-3</span><span class=\"total\">-3</span><span class=\"total\">-3</span>").data)
        ["us"]
      = .ok [(1, -3), (2, -3), (3, -3), (4, -3), (5, -3)] ∧
    ¬ (0 : Int) ≤ -3 :=
  ⟨rfl, by decide⟩

end ItunesScraper
